import Mathlib

/-!
# Verification of the gyroflow OpenCL compute-dispatch core (src/core/gpu/opencl.rs)

This file gives a shallow embedding of the OpenCL wrapper of the gyroflow
repository and proves the specification claims about it.

Conventions of the embedding:
* Rust `String`/`&str` values are embedded as `List Char` (abbreviated `Str`);
  `str::contains`, `str::replace` and `to_ascii_lowercase` are embedded as
  executable functions on `List Char` below.
* The OpenCL driver is embedded as mock data: a `MockPlatform` holds the
  results of the queries the code performs (`name()`, `version()`, ...), each
  an `Except OclError _` mirroring `ocl::Result`.  A device configuration is
  the list of platforms returned by `Platform::list()`.
* Fallible device-API calls made by the code (context/queue/buffer/image/
  program/kernel builds, writes, enqueues) are embedded as environment
  records holding each call's result, so every execution path of the source
  (success and each failure) is represented.
* The process-wide `CONTEXT: RwLock<Option<CtxWrapper>>` singleton is
  embedded by explicit state passing of an `Option CtxWrapper`.
* `ocl::BufferCmdError::MapUnavailable` (the error the source returns when no
  device qualifies or an index is out of range; the spec calls it
  `DeviceUnavailable`) is `OclError.mapUnavailable`; `AlreadyMapped` (the
  spec's `ConfigurationInvalid`) is `OclError.alreadyMapped`; all other
  device-API failures are collapsed to `OclError.apiFailure`.
-/

/-- Rust strings are embedded as lists of characters. -/
abbrev Str := List Char

/-- Boolean prefix test on character lists (used by `containsSub` and
`rustReplace`). -/
def isPrefixOfCl : List Char → List Char → Bool
  | [], _ => true
  | _ :: _, [] => false
  | a :: as, b :: bs => decide (a = b) && isPrefixOfCl as bs

/-- Embedding of Rust `str::contains(needle)`: does `needle` occur as a
contiguous substring of `hay`?  (`hay` is the first argument.) -/
def containsSub : List Char → List Char → Bool
  | [], needle => needle.isEmpty
  | c :: t, needle => isPrefixOfCl needle (c :: t) || containsSub t needle

/-- Fuel-driven worker for `rustReplace`; the fuel is the length of the
haystack, which bounds the number of steps since every step consumes at
least one character.  (Structural recursion on the fuel keeps the function
kernel-reducible.) -/
def replaceFuel (pat rep : List Char) : Nat → List Char → List Char
  | _, [] => []
  | 0, hay => hay
  | fuel + 1, c :: t =>
    if (!pat.isEmpty) && isPrefixOfCl pat (c :: t) then
      rep ++ replaceFuel pat rep fuel (List.drop (pat.length - 1) t)
    else
      c :: replaceFuel pat rep fuel t

/-- Embedding of Rust `str::replace(pat, rep)`: replaces every
non-overlapping occurrence of `pat`, scanning left to right.  (All patterns
used by the source are non-empty; for an empty pattern this embedding is the
identity.) -/
def rustReplace (hay pat rep : List Char) : List Char :=
  replaceFuel pat rep hay.length hay

/-- Embedding of Rust `char::to_ascii_lowercase`. -/
def asciiLower (c : Char) : Char :=
  if 'A' ≤ c ∧ c ≤ 'Z' then Char.ofNat (c.toNat + 32) else c

/-- Embedding of Rust `str::to_ascii_lowercase`. -/
def asciiLowerStr (s : Str) : Str := s.map asciiLower

/-- The character of a decimal digit. -/
def digitChar (d : Nat) : Char :=
  if d = 0 then '0' else if d = 1 then '1' else if d = 2 then '2'
  else if d = 3 then '3' else if d = 4 then '4' else if d = 5 then '5'
  else if d = 6 then '6' else if d = 7 then '7' else if d = 8 then '8'
  else '9'

/-- Fuel-driven digit expansion for `natToStr` (kernel-reducible). -/
def natToStrFuel : Nat → Nat → List Char
  | _, 0 => []
  | 0, _ => []
  | n + 1, fuel + 1 =>
    natToStrFuel ((n + 1) / 10) fuel ++ [digitChar ((n + 1) % 10)]

/-- Embedding of Rust decimal formatting `format!("{}", n)` for unsigned
integers. -/
def natToStr (n : Nat) : Str :=
  if n = 0 then ['0'] else natToStrFuel n n

/-- Error model for `ocl::Result`.  The source only ever constructs
`BufferCmdError::MapUnavailable` (no qualifying device / index out of range;
called `DeviceUnavailable` by the spec) and `BufferCmdError::AlreadyMapped`
(degenerate geometry / missing context; the spec's `ConfigurationInvalid`);
every other driver failure is collapsed to `apiFailure`. -/
inductive OclError
  | mapUnavailable
  | alreadyMapped
  | apiFailure
deriving DecidableEq, Repr

/-- `Except.isOk` as a plain Bool (avoids instance dependencies). -/
def exceptOk {ε α : Type} : Except ε α → Bool
  | .ok _ => true
  | .error _ => false

/-- Embedding of Rust `Result::unwrap_or_default`. -/
def exceptD {ε α : Type} : Except ε α → α → α
  | .ok a, _ => a
  | .error _, d => d

/-- A device as seen through the queries the source performs on it.
`typInfo` is the result of `d.info(DeviceInfo::Type)`: `some t` when the
query returns `Ok(DeviceInfoResult::Type(t))` (with `t` the `cl_device_type`
bitfield), `none` when the query fails or returns another variant. -/
structure MockDevice where
  name : Except OclError Str
  vendor : Except OclError Str
  version : Except OclError Str
  typInfo : Option Nat

/-- A platform: the results of its queries plus the result of
`Device::list(p, GPU|ACCELERATOR)` on it. -/
structure MockPlatform where
  name : Except OclError Str
  version : Except OclError Str
  extensions : Except OclError Str
  devices : Except OclError (List MockDevice)

/-- A device configuration: what `Platform::list()` returns. -/
abbrev Config := List MockPlatform

/-- `CL_DEVICE_TYPE_GPU`; the fallback selection pass compares the reported
device type bitfield for exact equality with this value. -/
def clDeviceTypeGpu : Nat := 4

/-- const EXCLUSIONS: the fixed denylist of known non-functional software
devices. -/
def EXCLUSIONS : List Str := [("Microsoft Basic Render Driver").toList]

/-- Does `s` contain a denylisted substring? -/
def isExcludedStr (s : Str) : Bool := EXCLUSIONS.any fun e => containsSub s e

/-- The listing format `"<platform> <device>: <version>"` used by
`list_devices`. -/
def deviceListing (pn dn dv : Str) : Str :=
  pn ++ (' ' :: dn) ++ (':' :: ' ' :: dv)

/-- The combined `"<platform> <device>"` name used by the preference pass of
`initialize_context` (queries defaulted to `""` on failure, as by
`unwrap_or_default`). -/
def combinedName (p : MockPlatform) (d : MockDevice) : Str :=
  exceptD p.name [] ++ (' ' :: exceptD d.name [])

/-- The body of the `catch_unwind` closure of `OclWrapper::list_devices`:
enumerate all platforms, skip platforms whose device listing fails, skip
devices for which any of the platform-name/device-name/device-version
queries fails, format the rest, then drop every entry containing a
denylisted substring. -/
def listDevicesBody (cfg : Config) : List Str :=
  let ret := cfg.flatMap fun p =>
    match p.devices with
    | .ok devs =>
      devs.filterMap fun d =>
        match p.name, d.name, d.version with
        | .ok pn, .ok dn, .ok dv => some (deviceListing pn dn dv)
        | _, _, _ => none
    | .error _ => []
  ret.filter fun x => !isExcludedStr x

/-- The `catch_unwind` closure itself: `fault` injects a panic raised
anywhere inside the enumeration (the mock driver's way of faulting). -/
def listDevicesClosure (cfg : Config) (fault : Option Str) : Except Str (List Str) :=
  match fault with
  | some msg => .error msg
  | none => .ok (listDevicesBody cfg)

/-- `OclWrapper::list_devices`: the panic is caught at the boundary, logged,
and degraded to an empty vector; a total function, so no fault can propagate
to the caller. -/
def OclWrapper.list_devices (cfg : Config) (fault : Option Str) : List Str :=
  match listDevicesClosure cfg fault with
  | .ok devices => devices
  | .error _ => []

/-- The context-build interop properties chosen by
`OclWrapper::get_properties`. -/
inductive ContextProps
  | default
  | glInterop
  | d3dDevice (handle : Nat)

/-- The per-dispatch buffer source (tagged union `BufferSource`).  `Cpu`
slices are byte lists; the other variants carry the raw handles/ids the
source stores (null pointers are the value 0). -/
inductive BufferSource
  | cpu (input : List Nat) (output : List Nat)
  | opencl (queue : Nat) (inputPtr : Nat) (outputPtr : Nat)
  | opengl (context : Nat) (input : Nat) (output : Nat)
  | directx (device : Nat) (input : Nat) (output : Nat)

/-- `BufferDescription`: a buffer source plus the input/output size triples
`(width, height, stride-bytes)` exactly as the source consumes them
(`.0`, `.1`, `.2`). -/
structure BufferDescription where
  buffers : BufferSource
  input_size : Nat × Nat × Nat
  output_size : Nat × Nat × Nat

/-- Modelled from the spec: `BufferSource::get_checksum` is defined in the
repository's `gpu` module, which is not among the given sources.  The spec
says only: "Each variant has a deterministic checksum function used to
detect surface changes."  It is embedded as a deterministic function of the
variant tag and its raw handles (the `Cpu` variant, having no external
surface, checksums to 0). -/
def get_checksum : BufferSource → Nat
  | .cpu _ _ => 0
  | .opencl q i o => 1 + 8 * (q + 31 * i + 961 * o)
  | .opengl c i o => 2 + 8 * (c + 31 * i + 961 * o)
  | .directx d i o => 3 + 8 * (d + 31 * i + 961 * o)

/-- `OclWrapper::get_properties`: graphics-sharing properties for the OpenGL
variant, a `D3d11DeviceKhr` property for the DirectX variant, none
otherwise. -/
def OclWrapper.get_properties : Option BufferDescription → ContextProps
  | some b =>
    match b.buffers with
    | .opengl _ _ _ => .glInterop
    | .directx dev _ _ => .d3dDevice dev
    | _ => .default
  | none => .default

/-- The process-wide context singleton's payload (`CtxWrapper`): selected
device, built context handle, platform, and the checksum of the surface the
context was built for. -/
structure CtxWrapper where
  device : MockDevice
  context : Nat
  platform : MockPlatform
  surface_checksum : Nat

/-- Environment for a single `Context::builder()...build()` call: the result
the driver returns for it (a context handle on success), as a function of
the interop properties passed to the builder. -/
structure CtxBuildEnv where
  ctxBuild : ContextProps → Except OclError Nat

/-- The body run by `set_device` at the device whose running index equals
the requested one: the three logging queries (each propagating its error via
`?`), the context build, and on success the `CtxWrapper` that is stored. -/
def set_deviceFound (env : CtxBuildEnv) (buffers : BufferDescription)
    (p : MockPlatform) (d : MockDevice) : Except OclError CtxWrapper :=
  match p.name with
  | .error e => .error e
  | .ok _ =>
    match d.vendor with
    | .error e => .error e
    | .ok _ =>
      match d.name with
      | .error e => .error e
      | .ok _ =>
        match env.ctxBuild (OclWrapper.get_properties (some buffers)) with
        | .error e => .error e
        | .ok h =>
          .ok { device := d, context := h, platform := p,
                surface_checksum := get_checksum buffers.buffers }

/-- Inner device loop of `set_device`: devices whose (error-defaulted) bare
name contains a denylisted substring are skipped without being counted;
the first counted device whose running index `i` equals `index` is used.
Returns `(some result, _)` when the index was hit inside this platform, and
`(none, i')` with the advanced counter otherwise. -/
def set_deviceDevs (env : CtxBuildEnv) (buffers : BufferDescription)
    (p : MockPlatform) (index : Nat) :
    List MockDevice → Nat → Option (Except OclError CtxWrapper) × Nat
  | [], i => (none, i)
  | d :: ds, i =>
    if EXCLUSIONS.any fun x => containsSub (exceptD d.name []) x then
      set_deviceDevs env buffers p index ds i
    else if i = index then
      (some (set_deviceFound env buffers p d), i)
    else
      set_deviceDevs env buffers p index ds (i + 1)

/-- Outer platform loop of `set_device`: platforms whose device listing
fails are skipped; if the loop ends without hitting the index the call fails
with `MapUnavailable` (the spec's `DeviceUnavailable`). -/
def set_devicePlats (env : CtxBuildEnv) (buffers : BufferDescription)
    (index : Nat) : List MockPlatform → Nat → Except OclError CtxWrapper
  | [], _ => .error .mapUnavailable
  | p :: ps, i =>
    match p.devices with
    | .error _ => set_devicePlats env buffers index ps i
    | .ok devs =>
      match set_deviceDevs env buffers p index devs i with
      | (some r, _) => r
      | (none, i') => set_devicePlats env buffers index ps i'

/-- `OclWrapper::set_device(index, buffers)`: on success the new
`CtxWrapper` (tagged with the checksum of `buffers`) is written to the
singleton immediately before `return Ok(())`; every failure path leaves the
singleton untouched. -/
def OclWrapper.set_device (cfg : Config) (env : CtxBuildEnv) (index : Nat)
    (buffers : BufferDescription) (st : Option CtxWrapper) :
    Except OclError Unit × Option CtxWrapper :=
  match set_devicePlats env buffers index cfg 0 with
  | .ok c => (.ok (), some c)
  | .error e => (.error e, st)

/-- The ordered preference keyword list of `initialize_context` (all
lowercase; matched case-insensitively against the combined
`"<platform> <device>"` name). -/
def preference : List Str :=
  [("nvidia").toList, ("radeon").toList, ("geforce").toList,
   ("firepro").toList, ("accelerated parallel processing").toList,
   ("graphics").toList]

/-- Does the combined platform+device name contain `pref`
(case-insensitively)? -/
def matchesPref (pref : Str) (p : MockPlatform) (d : MockDevice) : Bool :=
  containsSub (asciiLowerStr (combinedName p d)) pref

/-- Device loop of the preference pass. -/
def prefMatchDevs (pref : Str) (p : MockPlatform) :
    List MockDevice → Option (MockPlatform × MockDevice)
  | [] => none
  | d :: ds =>
    if matchesPref pref p d then some (p, d) else prefMatchDevs pref p ds

/-- Platform loop of the preference pass (platforms whose device listing
fails are skipped). -/
def prefMatchPlats (pref : Str) :
    List MockPlatform → Option (MockPlatform × MockDevice)
  | [] => none
  | p :: ps =>
    match p.devices with
    | .error _ => prefMatchPlats pref ps
    | .ok ds =>
      match prefMatchDevs pref p ds with
      | some pd => some pd
      | none => prefMatchPlats pref ps

/-- The labelled `'outer` loop: first preference keyword that any device
satisfies wins, with the first matching device in enumeration order. -/
def prefPass (cfg : Config) : List Str → Option (MockPlatform × MockDevice)
  | [] => none
  | pref :: rest =>
    match prefMatchPlats pref cfg with
    | some pd => some pd
    | none => prefPass cfg rest

/-- Device loop of the GPU-type fallback pass (`'outer2`): first device
whose type query reports exactly `CL_DEVICE_TYPE_GPU`. -/
def gpuFallbackDevs (p : MockPlatform) :
    List MockDevice → Option (MockPlatform × MockDevice)
  | [] => none
  | d :: ds =>
    match d.typInfo with
    | some t => if t = clDeviceTypeGpu then some (p, d) else gpuFallbackDevs p ds
    | none => gpuFallbackDevs p ds

/-- Platform loop of the GPU-type fallback pass. -/
def gpuFallbackPlats : List MockPlatform → Option (MockPlatform × MockDevice)
  | [] => none
  | p :: ps =>
    match p.devices with
    | .error _ => gpuFallbackPlats ps
    | .ok ds =>
      match gpuFallbackDevs p ds with
      | some pd => some pd
      | none => gpuFallbackPlats ps

/-- The automatic device selection of `initialize_context`: the preference
pass, then (only when it selected nothing) the GPU-type fallback pass. -/
def autoSelectDevice (cfg : Config) : Option (MockPlatform × MockDevice) :=
  match prefPass cfg preference with
  | some pd => some pd
  | none => gpuFallbackPlats cfg

/-- All `(platform, device)` pairs in enumeration order (platforms whose
device listing fails contribute nothing), as used to phrase the spec's
description of the selection rule. -/
def enumeratedPairs (cfg : Config) : List (MockPlatform × MockDevice) :=
  cfg.flatMap fun p =>
    match p.devices with
    | .ok ds => ds.map fun d => (p, d)
    | .error _ => []

/-- First element of a list satisfying a Boolean predicate. -/
def firstSuch {α : Type} : List α → (α → Bool) → Option α
  | [], _ => none
  | x :: xs, p => if p x then some x else firstSuch xs p

/-- First non-`none` value of `f` over a list. -/
def firstSome {α β : Type} : List α → (α → Option β) → Option β
  | [], _ => none
  | x :: xs, f =>
    match f x with
    | some b => some b
    | none => firstSome xs f

/-- The device-selection rule as the spec words it: iterate the preference
keywords in order and pick the first enumerated pair whose combined name
contains the first keyword that any pair satisfies; if no keyword matches
any pair, pick the first enumerated pair whose reported device type is
exactly GPU. -/
def specSelectDevice (cfg : Config) : Option (MockPlatform × MockDevice) :=
  match firstSome preference
      (fun pref => firstSuch (enumeratedPairs cfg) fun pd => matchesPref pref pd.1 pd.2) with
  | some pd => some pd
  | none =>
    firstSuch (enumeratedPairs cfg) fun pd => decide (pd.2.typInfo = some clDeviceTypeGpu)

/-- The pure part of `OclWrapper::initialize_context`: select a device, run
the four logging queries (each propagating its error via `?`), build the
context with the interop properties of `buffers`, and produce the two
display names plus the `CtxWrapper` to store (tagged with the checksum of
`buffers`, defaulted to 0 when absent). -/
def initialize_contextE (cfg : Config) (env : CtxBuildEnv)
    (buffers : Option BufferDescription) :
    Except OclError ((Str × Str) × CtxWrapper) :=
  match autoSelectDevice cfg with
  | none => .error .mapUnavailable
  | some (p, d) =>
    match p.name with
    | .error e => .error e
    | .ok pn =>
      match p.extensions with
      | .error e => .error e
      | .ok _ =>
        match d.vendor with
        | .error e => .error e
        | .ok vend =>
          match d.name with
          | .error e => .error e
          | .ok dn =>
            match env.ctxBuild (OclWrapper.get_properties buffers) with
            | .error e => .error e
            | .ok h =>
              .ok ((vend ++ (' ' :: dn), (("[OpenCL] ").toList) ++ pn ++ (' ' :: dn)),
                   { device := d, context := h, platform := p,
                     surface_checksum :=
                       match buffers with
                       | some b => get_checksum b.buffers
                       | none => 0 })

/-- `OclWrapper::initialize_context`: the singleton is replaced exactly when
the call succeeds. -/
def OclWrapper.initialize_context (cfg : Config) (env : CtxBuildEnv)
    (buffers : Option BufferDescription) (st : Option CtxWrapper) :
    Except OclError (Str × Str) × Option CtxWrapper :=
  match initialize_contextE cfg env buffers with
  | .ok (names, c) => (.ok names, some c)
  | .error e => (.error e, st)

/-- The identity pass-through digital-lens function pair substituted when the
secondary lens model is absent (the `default_digital_lens` literal of
`OclWrapper::new`, including its literal line break and indentation). -/
def default_digital_lens : Str :=
  ("float2 digital_undistort_point(float2 uv, __global KernelParams *p) \x7b return uv; \x7d\n                                        float2 digital_distort_point(float2 uv, __global KernelParams *p) \x7b return uv; \x7d").toList

/-- `ComputeParams`: the primary distortion model's generated shader-function
text, plus the optional secondary "digital lens" model's text (opaque
collaborator texts). -/
structure ComputeParams where
  distortion_model : Str
  digital_lens : Option Str

/-- Modelled from the spec: the fixed kernel template
(`opencl_undistort.cl`, pulled in by `include_str!`, is not among the given
sources).  Per the spec's template contract, each of the seven placeholder
tokens exists exactly once, and the entry point `undistort_image` takes the
five buffer arguments over a 2D grid.  The `LENS_MODEL_FUNCTIONS` token
occurs as the statement `LENS_MODEL_FUNCTIONS;`, which is the exact text the
composer replaces. -/
def openclUndistortTemplate : Str :=
  ("LENS_MODEL_FUNCTIONS;\n__kernel void undistort_image(__global const DATA_TYPE *src, __global DATA_TYPEF *dst_px, __global const uchar *params_buf, __global const float *matrices, __global const uchar *drawing) \x7b\n    int bpp = PIXEL_BYTES;\n    int interp = INTERPOLATION;\n    DATA_CONVERTF(src[0]);\n    DATA_CONVERT(drawing[0]);\n\x7d\n").toList

/-- The kernel-source composition of `OclWrapper::new` (lines 179-193):
append the secondary (or identity) lens functions to the primary lens
functions, then textually substitute the placeholders in this order:
`LENS_MODEL_FUNCTIONS;`, `DATA_CONVERTF`, `DATA_TYPEF`, `DATA_CONVERT`,
`DATA_TYPE`, `PIXEL_BYTES`, `INTERPOLATION`.  `ocl_names` is the 4-tuple
`(DATA_TYPE, DATA_CONVERT, DATA_TYPEF, DATA_CONVERTF)` replacement text. -/
def composeKernelSource (template : Str) (compute_params : ComputeParams)
    (ocl_names : Str × Str × Str × Str) (bytes_per_pixel interpolation : Nat) : Str :=
  let lens_model_functions :=
    compute_params.distortion_model ++
      (match compute_params.digital_lens with
       | some s => s
       | none => default_digital_lens)
  let k := rustReplace template (("LENS_MODEL_FUNCTIONS;").toList) lens_model_functions
  let k := rustReplace k (("DATA_CONVERTF").toList) ocl_names.2.2.2
  let k := rustReplace k (("DATA_TYPEF").toList) ocl_names.2.2.1
  let k := rustReplace k (("DATA_CONVERT").toList) ocl_names.2.1
  let k := rustReplace k (("DATA_TYPE").toList) ocl_names.1
  let k := rustReplace k (("PIXEL_BYTES").toList) (natToStr bytes_per_pixel)
  rustReplace k (("INTERPOLATION").toList) (natToStr interpolation)

/-- The seven placeholder tokens of the template contract. -/
def placeholderTokens : List Str :=
  [("LENS_MODEL_FUNCTIONS").toList, ("DATA_CONVERTF").toList,
   ("DATA_TYPEF").toList, ("DATA_CONVERT").toList, ("DATA_TYPE").toList,
   ("PIXEL_BYTES").toList, ("INTERPOLATION").toList]

/-- Modelled from the spec: `KernelParams` (from `crate::stabilization`, not
among the given sources) is a fixed-layout struct of per-frame scalars; only
the fields the wrapper reads are embedded. -/
structure KernelParams where
  height : Nat
  output_height : Nat
  stride : Nat
  bytes_per_pixel : Nat
  interpolation : Nat

/-- Modelled from the spec: the byte size `size_of::<KernelParams>()` of the
external fixed-layout struct (the exact value is irrelevant to every claim;
it only sizes the parameter upload buffer). -/
def kernelParamsSize : Nat := 336

/-- A 3×3 row-correction matrix (nine `f32` entries, embedded as opaque
integers: no claim depends on the numeric contents, only on counts). -/
structure Mat33 where
  m00 : Int
  m01 : Int
  m02 : Int
  m10 : Int
  m11 : Int
  m12 : Int
  m20 : Int
  m21 : Int
  m22 : Int

/-- `FrameTransform`: per-frame `KernelParams` snapshot plus the ordered
matrix sequence.  `undistort_image` reinterprets the matrices as a flat
`f32` slice of length `matrices.len() * 9`. -/
structure FrameTransform where
  kernel_params : KernelParams
  matrices : List Mat33

/-- `SpatialDims` as consumed by the download stage (`if let
SpatialDims::Three(w, h, d) = tex.dims()`). -/
inductive SpatialDims
  | three (w h d : Nat)
  | other

/-- A device image bound to a shared texture: the texture id it was created
from, its `pixel_count()`, and its `dims()`. -/
structure MockImage where
  id : Nat
  pixel_count : Nat
  dims : SpatialDims

/-- The image the `ocl` library builds from a texture and an
`ImageDescriptor::new(Image2d, size.0, size.1, 1, 1, size.2, 0, None)`
descriptor: width `size.0`, height `size.1`, depth 1. -/
def mkImageFromDesc (texId : Nat) (size : Nat × Nat × Nat) : MockImage :=
  { id := texId, pixel_count := size.1 * size.2.1 * 1,
    dims := .three size.1 size.2.1 1 }

/-- Environment for one `OclWrapper::new` call: the result of every fallible
device-API call it can make, in source order. -/
structure NewEnv where
  initEnv : CtxBuildEnv
  queueNew : Except OclError Unit
  extQueueDevice : Except OclError MockDevice
  extQueueContext : Except OclError Nat
  queueNew2 : Except OclError Unit
  srcBufBuild : Except OclError Unit
  dstBufBuild : Except OclError Unit
  imgSrcBuild : Except OclError Unit
  imgDstBuild : Except OclError Unit
  programBuild : Except OclError Unit
  paramsBufBuild : Except OclError Unit
  drawingBufBuild : Except OclError Unit
  matricesBufBuild : Except OclError Unit
  kernelBuild : Except OclError Unit

/-- The per-variant buffer/image allocation of `OclWrapper::new` (the
`match &buffers.buffers` at lines 212-261).  Returns the built source and
destination buffer lengths, the optional shared-texture images, and the
(possibly mutated) context: the external-queue adoption of the `OpenCL`
variant rewrites the context's device and context handles in place, a
mutation that persists even when a later step fails. -/
def buildVariant (env : NewEnv) (params : KernelParams)
    (buffers : BufferDescription) (ctx : CtxWrapper) :
    Except OclError (Nat × Nat × Option MockImage × Option MockImage) × CtxWrapper :=
  match buffers.buffers with
  | .cpu input output =>
    (match env.srcBufBuild with
     | .error e => .error e
     | .ok _ =>
       match env.dstBufBuild with
       | .error e => .error e
       | .ok _ => .ok (input.length, output.length, none, none), ctx)
  | .opencl queue _ _ =>
    if queue ≠ 0 then
      match env.extQueueDevice with
      | .error e => (.error e, ctx)
      | .ok dev =>
        match env.extQueueContext with
        | .error e => (.error e, ctx)
        | .ok ch =>
          let ctx' := { ctx with device := dev, context := ch }
          match env.queueNew2 with
          | .error e => (.error e, ctx')
          | .ok _ =>
            (match env.srcBufBuild with
             | .error e => .error e
             | .ok _ =>
               match env.dstBufBuild with
               | .error e => .error e
               | .ok _ =>
                 .ok (buffers.input_size.2.1 * buffers.input_size.2.2,
                      buffers.output_size.2.1 * buffers.output_size.2.2,
                      none, none), ctx')
    else
      (match env.srcBufBuild with
       | .error e => .error e
       | .ok _ =>
         match env.dstBufBuild with
         | .error e => .error e
         | .ok _ =>
           .ok (buffers.input_size.2.1 * buffers.input_size.2.2,
                buffers.output_size.2.1 * buffers.output_size.2.2,
                none, none), ctx)
  | .opengl _ input output =>
    (match env.imgSrcBuild with
     | .error e => .error e
     | .ok _ =>
       match env.imgDstBuild with
       | .error e => .error e
       | .ok _ =>
         match env.srcBufBuild with
         | .error e => .error e
         | .ok _ =>
           match env.dstBufBuild with
           | .error e => .error e
           | .ok _ =>
             .ok (buffers.input_size.2.1 * buffers.input_size.2.2,
                  buffers.output_size.2.1 * buffers.output_size.2.2,
                  some (mkImageFromDesc input buffers.input_size),
                  some (mkImageFromDesc output buffers.output_size)), ctx)
  | .directx _ input output =>
    if input = output then
      (match env.imgSrcBuild with
       | .error e => .error e
       | .ok _ =>
         match env.srcBufBuild with
         | .error e => .error e
         | .ok _ =>
           match env.dstBufBuild with
           | .error e => .error e
           | .ok _ =>
             .ok ((mkImageFromDesc input buffers.input_size).pixel_count * params.bytes_per_pixel,
                  (mkImageFromDesc input buffers.input_size).pixel_count * params.bytes_per_pixel,
                  some (mkImageFromDesc input buffers.input_size),
                  some (mkImageFromDesc input buffers.input_size)), ctx)
    else
      (match env.imgSrcBuild with
       | .error e => .error e
       | .ok _ =>
         match env.imgDstBuild with
         | .error e => .error e
         | .ok _ =>
           match env.srcBufBuild with
           | .error e => .error e
           | .ok _ =>
             match env.dstBufBuild with
             | .error e => .error e
             | .ok _ =>
               .ok ((mkImageFromDesc input buffers.input_size).pixel_count * params.bytes_per_pixel,
                    (mkImageFromDesc output buffers.output_size).pixel_count * params.bytes_per_pixel,
                    some (mkImageFromDesc input buffers.input_size),
                    some (mkImageFromDesc output buffers.output_size)), ctx)

/-- The Compute Unit state (`struct OclWrapper`): device buffers are
embedded as their element lengths, the compiled kernel as its composed
source text and global work size. -/
structure OclWrapperSt where
  kernelSource : Str
  globalWorkSize : Nat × Nat
  srcLen : Nat
  dstLen : Nat
  image_src : Option MockImage
  image_dst : Option MockImage
  bufParamsLen : Nat
  bufDrawingLen : Nat
  bufMatricesLen : Nat

/-- The context-rebuild test of `OclWrapper::new` (lines 199-200):
`!context_initialized || ctx.surface_checksum != checksum`. -/
def needsInit (st : Option CtxWrapper) (chk : Nat) : Bool :=
  match st with
  | none => true
  | some c => c.surface_checksum != chk

/-- The body of `OclWrapper::new` run while holding the write lock with an
available context (lines 206-299): queue creation; per-variant buffer/image
allocation (possibly adopting an external queue's device/context); program
build; parameter, drawing and matrix upload-buffer builds (the matrix
buffer holds `9 * params.height` floats); kernel build.  Returns the
construction result and the (possibly mutated) context, which persists even
when a step after the mutation fails. -/
def newWithCtx (env : NewEnv) (params : KernelParams)
    (buffers : BufferDescription) (kernelSrc : Str) (drawing_len : Nat)
    (ctx : CtxWrapper) : Except OclError OclWrapperSt × CtxWrapper :=
  match env.queueNew with
  | .error e => (.error e, ctx)
  | .ok _ =>
    match buildVariant env params buffers ctx with
    | (.error e, ctx') => (.error e, ctx')
    | (.ok (srcLen, dstLen, iSrc, iDst), ctx') =>
      match env.programBuild with
      | .error e => (.error e, ctx')
      | .ok _ =>
        match env.paramsBufBuild with
        | .error e => (.error e, ctx')
        | .ok _ =>
          match env.drawingBufBuild with
          | .error e => (.error e, ctx')
          | .ok _ =>
            match env.matricesBufBuild with
            | .error e => (.error e, ctx')
            | .ok _ =>
              match env.kernelBuild with
              | .error e => (.error e, ctx')
              | .ok _ =>
                (.ok { kernelSource := kernelSrc,
                       globalWorkSize := (buffers.output_size.1, buffers.output_size.2.1),
                       srcLen := srcLen, dstLen := dstLen,
                       image_src := iSrc, image_dst := iDst,
                       bufParamsLen := kernelParamsSize,
                       bufDrawingLen := drawing_len,
                       bufMatricesLen := 9 * params.height },
                 ctx')

/-- `OclWrapper::new`.  Returns the construction result, the final singleton
state, and whether `initialize_context` was invoked.  Order of effects, as
in the source: degenerate-geometry precheck; kernel-source composition;
context rebuild test and (possibly) `initialize_context`; then the
write-lock body `newWithCtx` (or `AlreadyMapped` when no context is
available). -/
def OclWrapper.new (cfg : Config) (params : KernelParams)
    (ocl_names : Str × Str × Str × Str) (compute_params : ComputeParams)
    (buffers : BufferDescription) (drawing_len : Nat) (env : NewEnv)
    (st : Option CtxWrapper) :
    Except OclError OclWrapperSt × Option CtxWrapper × Bool :=
  if params.height < 4 ∨ params.output_height < 4 ∨ params.stride < 1 then
    (.error .alreadyMapped, st, false)
  else
    let kernelSrc := composeKernelSource openclUndistortTemplate compute_params
      ocl_names params.bytes_per_pixel params.interpolation
    let chk := get_checksum buffers.buffers
    let needInit := needsInit st chk
    let afterInit : Except OclError (Option CtxWrapper) :=
      if needInit then
        match OclWrapper.initialize_context cfg env.initEnv (some buffers) st with
        | (.ok _, st') => .ok st'
        | (.error e, _) => .error e
      else .ok st
    match afterInit with
    | .error e => (.error e, st, needInit)
    | .ok st1 =>
      match st1 with
      | none => (.error .alreadyMapped, st1, needInit)
      | some ctx =>
        match newWithCtx env params buffers kernelSrc drawing_len ctx with
        | (r, ctx') => (r, some ctx', needInit)

/-- A sequence of constructions sharing one buffer source: threads the
singleton state through successive `OclWrapper::new` calls and records, for
each, whether it invoked `initialize_context`. -/
def newSeqInitCalls (cfg : Config) (params : KernelParams)
    (ocl_names : Str × Str × Str × Str) (compute_params : ComputeParams)
    (buffers : BufferDescription) (drawing_len : Nat) :
    Option CtxWrapper → List NewEnv → List Bool
  | _, [] => []
  | st, env :: envs =>
    let r := OclWrapper.new cfg params ocl_names compute_params buffers drawing_len env st
    r.2.2 :: newSeqInitCalls cfg params ocl_names compute_params buffers drawing_len r.2.1 envs

/-- The graphics API of a shared-texture acquire/release bracket. -/
inductive ApiKind
  | gl
  | dx
deriving DecidableEq, Repr

/-- Observable shared-texture events of one dispatch: an acquire attempt on
a texture (with its success flag), the intermediate copy attempt (whose
result the source ignores), and a release call.  A release call is recorded
when it is issued, whether or not it itself succeeds. -/
inductive Ev
  | acq (api : ApiKind) (tex : Nat) (ok : Bool)
  | copy (api : ApiKind) (ok : Bool)
  | rel (api : ApiKind) (tex : Nat)
deriving DecidableEq, Repr

/-- Environment for one `undistort_image` call: the result of every
fallible device-API call it can make, in source order, plus the bytes a
successful destination read deposits in the caller's output slice. -/
structure DispatchEnv where
  drawingWrite : Bool
  srcWrite : Bool
  setArg0 : Bool
  setArg1 : Bool
  acquireSrc : Bool
  copySrc : Bool
  releaseSrc : Bool
  paramsWrite : Bool
  matricesWrite : Bool
  kernelEnq : Bool
  dstRead : Bool
  dstData : List Nat
  acquireDst : Bool
  copyDst : Bool
  releaseDst : Bool

/-- The outcome of one dispatch: the returned `ocl::Result`, the caller's
output byte slice after the call, the shared-texture event trace, and
whether the kernel enqueue call was issued. -/
structure DispatchResult where
  res : Except OclError Unit
  output : List Nat
  trace : List Ev
  enqueued : Bool

/-- The caller's `Cpu` output slice (empty for the other variants, which
have no caller-visible byte slice). -/
def cpuOutput : BufferSource → List Nat
  | .cpu _ o => o
  | _ => []

/-- The tail of `undistort_image` after the input stage (lines 353-385):
upload the `KernelParams` bytes and the matrix slice, enqueue the kernel,
then run the per-variant download stage.  `tr` is the event trace
accumulated by the input stage. -/
def undistortTail (w : OclWrapperSt) (buffers : BufferDescription)
    (env : DispatchEnv) (tr : List Ev) : DispatchResult :=
  let out0 := cpuOutput buffers.buffers
  if !env.paramsWrite then ⟨.error .apiFailure, out0, tr, false⟩
  else if !env.matricesWrite then ⟨.error .apiFailure, out0, tr, false⟩
  else if !env.kernelEnq then ⟨.error .apiFailure, out0, tr, true⟩
  else
    match buffers.buffers with
    | .cpu _ output =>
      if env.dstRead then ⟨.ok (), env.dstData, tr, true⟩
      else ⟨.error .apiFailure, output, tr, true⟩
    | .opengl _ _ _ =>
      match w.image_dst with
      | none => ⟨.ok (), out0, tr, true⟩
      | some tex =>
        if env.acquireDst then
          match tex.dims with
          | .three _ _ _ =>
            if env.releaseDst then
              ⟨.ok (), out0, tr ++ [.acq .gl tex.id true, .copy .gl env.copyDst, .rel .gl tex.id], true⟩
            else
              ⟨.error .apiFailure, out0, tr ++ [.acq .gl tex.id true, .copy .gl env.copyDst, .rel .gl tex.id], true⟩
          | .other =>
            if env.releaseDst then
              ⟨.ok (), out0, tr ++ [.acq .gl tex.id true, .rel .gl tex.id], true⟩
            else
              ⟨.error .apiFailure, out0, tr ++ [.acq .gl tex.id true, .rel .gl tex.id], true⟩
        else ⟨.error .apiFailure, out0, tr ++ [.acq .gl tex.id false], true⟩
    | .directx _ _ _ =>
      match w.image_dst with
      | none => ⟨.ok (), out0, tr, true⟩
      | some tex =>
        if env.acquireDst then
          match tex.dims with
          | .three _ _ _ =>
            if env.releaseDst then
              ⟨.ok (), out0, tr ++ [.acq .dx tex.id true, .copy .dx env.copyDst, .rel .dx tex.id], true⟩
            else
              ⟨.error .apiFailure, out0, tr ++ [.acq .dx tex.id true, .copy .dx env.copyDst, .rel .dx tex.id], true⟩
          | .other =>
            if env.releaseDst then
              ⟨.ok (), out0, tr ++ [.acq .dx tex.id true, .rel .dx tex.id], true⟩
            else
              ⟨.error .apiFailure, out0, tr ++ [.acq .dx tex.id true, .rel .dx tex.id], true⟩
        else ⟨.error .apiFailure, out0, tr ++ [.acq .dx tex.id false], true⟩
    | .opencl _ _ _ => ⟨.ok (), out0, tr, true⟩

/-- The input stage of `undistort_image` (the `match buffers.buffers` at
lines 323-351): `Cpu` validates the input and output slice lengths against
the allocated buffers (mismatch skips the frame with `Ok`), then uploads
the input; `OpenCL` rebinds the kernel's first two arguments; the
shared-texture variants bracket an (ignored-result) copy with an
acquire/release pair on the source image. -/
def undistortFromInput (w : OclWrapperSt) (buffers : BufferDescription)
    (env : DispatchEnv) : DispatchResult :=
  let out0 := cpuOutput buffers.buffers
  match buffers.buffers with
  | .cpu input output =>
    if w.srcLen ≠ input.length then ⟨.ok (), output, [], false⟩
    else if w.dstLen ≠ output.length then ⟨.ok (), output, [], false⟩
    else if env.srcWrite then undistortTail w buffers env []
    else ⟨.error .apiFailure, output, [], false⟩
  | .opencl _ _ _ =>
    if env.setArg0 then
      if env.setArg1 then undistortTail w buffers env []
      else ⟨.error .apiFailure, out0, [], false⟩
    else ⟨.error .apiFailure, out0, [], false⟩
  | .opengl _ _ _ =>
    match w.image_src with
    | none => undistortTail w buffers env []
    | some tex =>
      if env.acquireSrc then
        if env.releaseSrc then
          undistortTail w buffers env [.acq .gl tex.id true, .copy .gl env.copySrc, .rel .gl tex.id]
        else
          ⟨.error .apiFailure, out0, [.acq .gl tex.id true, .copy .gl env.copySrc, .rel .gl tex.id], false⟩
      else ⟨.error .apiFailure, out0, [.acq .gl tex.id false], false⟩
  | .directx _ _ _ =>
    match w.image_src with
    | none => undistortTail w buffers env []
    | some tex =>
      if env.acquireSrc then
        if env.releaseSrc then
          undistortTail w buffers env [.acq .dx tex.id true, .copy .dx env.copySrc, .rel .dx tex.id]
        else
          ⟨.error .apiFailure, out0, [.acq .dx tex.id true, .copy .dx env.copySrc, .rel .dx tex.id], false⟩
      else ⟨.error .apiFailure, out0, [.acq .dx tex.id false], false⟩

/-- `OclWrapper::undistort_image`.  Validation order, as in the source:
matrix-capacity check (`buf_matrices.len() < matrices.len() * 9` floats),
source-image and destination-image byte-length checks, drawing-buffer
length check and upload, then the input stage and the tail.  Every failed
validation skips the frame: it logs, returns `Ok`, enqueues nothing and
leaves the caller's output untouched. -/
def OclWrapperSt.undistort_image (w : OclWrapperSt) (buffers : BufferDescription)
    (itm : FrameTransform) (drawing_buffer : List Nat) (env : DispatchEnv) :
    DispatchResult :=
  let out0 := cpuOutput buffers.buffers
  if w.bufMatricesLen < itm.matrices.length * 9 then ⟨.ok (), out0, [], false⟩
  else if (match w.image_src with
           | some tex => decide (tex.pixel_count * itm.kernel_params.bytes_per_pixel ≠ w.srcLen)
           | none => false) then ⟨.ok (), out0, [], false⟩
  else if (match w.image_dst with
           | some tex => decide (tex.pixel_count * itm.kernel_params.bytes_per_pixel ≠ w.dstLen)
           | none => false) then ⟨.ok (), out0, [], false⟩
  else if !drawing_buffer.isEmpty then
    if w.bufDrawingLen ≠ drawing_buffer.length then ⟨.ok (), out0, [], false⟩
    else if env.drawingWrite then undistortFromInput w buffers env
    else ⟨.error .apiFailure, out0, [], false⟩
  else undistortFromInput w buffers env

/-- Is a `rel api tex` event present in the list? -/
def releasedIn (tl : List Ev) (api : ApiKind) (tex : Nat) : Bool :=
  tl.any fun e => decide (e = Ev.rel api tex)

/-- Every successful acquire event is followed, later in the trace, by a
release call on the same texture through the same API. -/
def acquiresReleased : List Ev → Bool
  | [] => true
  | .acq api tex ok :: tl => ((!ok) || releasedIn tl api tex) && acquiresReleased tl
  | _ :: tl => acquiresReleased tl

/-- A device whose every query succeeds. -/
def mkOkDevice (nm vend ver : Str) (typ : Option Nat) : MockDevice :=
  { name := .ok nm, vendor := .ok vend, version := .ok ver, typInfo := typ }

/-- A platform whose every query succeeds. -/
def mkOkPlatform (nm : Str) (ds : List MockDevice) : MockPlatform :=
  { name := .ok nm, version := .ok [], extensions := .ok [], devices := .ok ds }

/-- A context-build environment whose build succeeds. -/
def ctxBuildOk : CtxBuildEnv := { ctxBuild := fun _ => .ok 7 }

/-- A `new` environment in which every device-API call succeeds. -/
def newEnvOk : NewEnv :=
  { initEnv := ctxBuildOk, queueNew := .ok (),
    extQueueDevice := .ok (mkOkDevice [] [] [] none), extQueueContext := .ok 0,
    queueNew2 := .ok (), srcBufBuild := .ok (), dstBufBuild := .ok (),
    imgSrcBuild := .ok (), imgDstBuild := .ok (), programBuild := .ok (),
    paramsBufBuild := .ok (), drawingBufBuild := .ok (),
    matricesBufBuild := .ok (), kernelBuild := .ok () }

/-- A dispatch environment in which every device-API call succeeds; a
successful destination read deposits `[9, 9]`. -/
def dispatchEnvOk : DispatchEnv :=
  { drawingWrite := true, srcWrite := true, setArg0 := true, setArg1 := true,
    acquireSrc := true, copySrc := true, releaseSrc := true,
    paramsWrite := true, matricesWrite := true, kernelEnq := true,
    dstRead := true, dstData := [9, 9], acquireDst := true, copyDst := true,
    releaseDst := true }

/-- A configuration with one well-behaved GPU device. -/
def cfgGpu : Config :=
  [mkOkPlatform (("Plat").toList)
    [mkOkDevice (("Dev").toList) (("Vend").toList) (("1.0").toList) (some clDeviceTypeGpu)]]

/-- A configuration whose only (GPU-type) device carries a denylisted name:
`list_devices` filters it out, but the automatic selection of
`initialize_context` applies no denylist. -/
def cfgDenylistedGpu : Config :=
  [mkOkPlatform (("Plat").toList)
    [mkOkDevice (("Microsoft Basic Render Driver").toList) (("Microsoft").toList)
      (("1.0").toList) (some clDeviceTypeGpu)]]

/-- A configuration whose platform name carries the denylisted substring
while its device's bare name does not: `list_devices` (which filters the
full `"<platform> <device>: <version>"` string) drops the entry, but
`set_device` (which filters the bare device name only) still counts it. -/
def cfgPlatformDenylisted : Config :=
  [mkOkPlatform (("Microsoft Basic Render Driver").toList)
    [mkOkDevice (("Dev").toList) (("Vend").toList) (("1.0").toList) (some clDeviceTypeGpu)]]

/-- A configuration with two well-behaved devices on one platform. -/
def cfgTwo : Config :=
  [mkOkPlatform (("Plat").toList)
    [mkOkDevice (("Alpha").toList) (("VendA").toList) (("1.0").toList) (some clDeviceTypeGpu),
     mkOkDevice (("Beta").toList) (("VendB").toList) (("2.0").toList) (some clDeviceTypeGpu)]]

/-- A `Cpu` buffer description with a 2-byte input and a 3-byte output. -/
def bufsCpu : BufferDescription :=
  { buffers := .cpu [0, 0] [0, 0, 0], input_size := (2, 1, 2), output_size := (3, 1, 3) }

/-- Well-formed kernel parameters whose frame height (4) differs from the
output height (8). -/
def parsTall : KernelParams :=
  { height := 4, output_height := 8, stride := 1, bytes_per_pixel := 4, interpolation := 1 }

/-- The pixel-format token 4-tuple of the spec's composition test. -/
def namesUchar4 : Str × Str × Str × Str :=
  (("uchar4").toList, ("convert_uchar4").toList, ("float4").toList, ("convert_float4").toList)

/-- Modelled from the spec: a stand-in for the primary distortion model's
generated shader-function pair (an opaque collaborator text following the
two-function contract). -/
def lensStandIn : Str :=
  ("float2 undistort_point(float2 uv, __global KernelParams *p) \x7b return uv; \x7d float2 distort_point(float2 uv, __global KernelParams *p) \x7b return uv; \x7d").toList

/-- Compute parameters with an absent secondary lens model. -/
def cpNoDigital : ComputeParams :=
  { distortion_model := lensStandIn, digital_lens := none }

/-- A template containing each of the seven placeholder tokens in which
`LENS_MODEL_FUNCTIONS` is not followed by `;`. -/
def c6BadTemplate : Str :=
  ("LENS_MODEL_FUNCTIONS DATA_CONVERTF DATA_TYPEF DATA_CONVERT DATA_TYPE PIXEL_BYTES INTERPOLATION").toList

/-- The all-zero Compute Unit state (used only as a `getD` default). -/
def emptyWrapper : OclWrapperSt :=
  { kernelSource := [], globalWorkSize := (0, 0), srcLen := 0, dstLen := 0,
    image_src := none, image_dst := none, bufParamsLen := 0,
    bufDrawingLen := 0, bufMatricesLen := 0 }

/-- The bare-device-name exclusion test used by `set_device` (name query
defaulted to `""` on failure). -/
def deviceNotExcludedBare (d : MockDevice) : Bool :=
  !(EXCLUSIONS.any fun x => containsSub (exceptD d.name []) x)

/-- The `(platform, device)` pairs in enumeration order, filtered by the
bare-device-name exclusion test — the enumeration `set_device` walks with
its running index. -/
def filteredPairs (cfg : Config) : List (MockPlatform × MockDevice) :=
  cfg.flatMap fun p =>
    match p.devices with
    | .ok ds => (ds.filter deviceNotExcludedBare).map fun d => (p, d)
    | .error _ => []

/-- The listing string of a pair (queries defaulted to `""` on failure). -/
def listingOfPair (pd : MockPlatform × MockDevice) : Str :=
  deviceListing (exceptD pd.1.name []) (exceptD pd.2.name []) (exceptD pd.2.version [])

/-- Every platform and device query of the configuration succeeds. -/
def queriesOk (cfg : Config) : Bool :=
  cfg.all fun p =>
    exceptOk p.name &&
    (match p.devices with
     | .error _ => false
     | .ok ds => ds.all fun d => exceptOk d.name && exceptOk d.vendor && exceptOk d.version)

/-- For every enumerated device, the formatted listing string contains a
denylisted substring exactly when the bare device name does (rules out
entries denylisted only through their platform name or version). -/
def exclusionAgrees (cfg : Config) : Bool :=
  cfg.all fun p =>
    match p.devices with
    | .error _ => true
    | .ok ds =>
      ds.all fun d =>
        match p.name, d.name, d.version with
        | .ok pn, .ok dn, .ok dv =>
          isExcludedStr (deviceListing pn dn dv) == isExcludedStr dn
        | _, _, _ => true

/-- A frame transform with an empty matrix sequence. -/
def itmEmpty : FrameTransform :=
  { kernel_params := parsTall, matrices := [] }

/-- The all-zero matrix. -/
def mat0 : Mat33 :=
  { m00 := 0, m01 := 0, m02 := 0, m10 := 0, m11 := 0, m12 := 0,
    m20 := 0, m21 := 0, m22 := 0 }

/-- A frame transform with one matrix (9 floats). -/
def itmOne : FrameTransform :=
  { kernel_params := parsTall, matrices := [mat0] }

/-- The Compute Unit built from `cfgGpu`/`parsTall` with every device call
succeeding (used to witness construction facts concretely). -/
def builtTall : OclWrapperSt :=
  ((OclWrapper.new cfgGpu parsTall namesUchar4 cpNoDigital bufsCpu 0 newEnvOk none).1.toOption).getD
    emptyWrapper

/-- A concrete stored context (used to witness that failing calls leave the
singleton untouched). -/
def ctxStored : CtxWrapper :=
  { device := mkOkDevice (("Dev").toList) (("Vend").toList) (("1.0").toList) (some clDeviceTypeGpu),
    context := 3, platform := mkOkPlatform (("Plat").toList) [],
    surface_checksum := 123 }

/-! ## Theorems -/

theorem releasedIn_append_left (tl ys : List Ev) (api : ApiKind) (tex : Nat)
    (h : releasedIn tl api tex = true) : releasedIn (tl ++ ys) api tex = true := by
  simp only [releasedIn, List.any_append, Bool.or_eq_true]
  exact Or.inl h

theorem acquiresReleased_append (xs ys : List Ev)
    (hx : acquiresReleased xs = true) (hy : acquiresReleased ys = true) :
    acquiresReleased (xs ++ ys) = true := by
  induction xs with
  | nil => simpa using hy
  | cons e tl ih =>
    cases e with
    | acq api tex ok =>
      simp only [acquiresReleased, Bool.and_eq_true, Bool.or_eq_true] at hx
      simp only [List.cons_append, acquiresReleased, Bool.and_eq_true, Bool.or_eq_true]
      refine ⟨?_, ih hx.2⟩
      rcases hx.1 with h | h
      · exact Or.inl h
      · exact Or.inr (releasedIn_append_left tl ys api tex h)
    | copy api ok =>
      simp only [acquiresReleased] at hx
      simpa only [List.cons_append, acquiresReleased] using ih hx
    | rel api tex =>
      simp only [acquiresReleased] at hx
      simpa only [List.cons_append, acquiresReleased] using ih hx

theorem segBracketCopy (api : ApiKind) (t : Nat) (b : Bool) :
    acquiresReleased [.acq api t true, .copy api b, .rel api t] = true := by
  simp [acquiresReleased, releasedIn]

theorem segBracket (api : ApiKind) (t : Nat) :
    acquiresReleased [.acq api t true, .rel api t] = true := by
  simp [acquiresReleased, releasedIn]

theorem segAcqFail (api : ApiKind) (t : Nat) :
    acquiresReleased [.acq api t false] = true := by
  simp [acquiresReleased]

theorem acquiresReleased_tail (w : OclWrapperSt) (buffers : BufferDescription)
    (env : DispatchEnv) (tr : List Ev) (h : acquiresReleased tr = true) :
    acquiresReleased (undistortTail w buffers env tr).trace = true := by
  unfold undistortTail
  repeat' split
  all_goals first
    | exact h
    | exact acquiresReleased_append _ _ h (segBracketCopy _ _ _)
    | exact acquiresReleased_append _ _ h (segBracket _ _)
    | exact acquiresReleased_append _ _ h (segAcqFail _ _)

theorem acquiresReleased_fromInput (w : OclWrapperSt) (buffers : BufferDescription)
    (env : DispatchEnv) :
    acquiresReleased (undistortFromInput w buffers env).trace = true := by
  unfold undistortFromInput
  repeat' split
  all_goals first
    | rfl
    | exact acquiresReleased_tail _ _ _ _ rfl
    | exact acquiresReleased_tail _ _ _ _ (segBracketCopy _ _ _)
    | exact segBracketCopy _ _ _

/-- C8: in every execution path of `undistort_image`, each successful
shared-texture acquire (OpenGL or DirectX, on the source or destination
image) is followed by a matching release call on the same texture before
the function exits on that path, including paths where the intermediate
copy fails (whose result the source discards). -/
theorem c8_acquire_release_bracket (w : OclWrapperSt)
    (buffers : BufferDescription) (itm : FrameTransform)
    (drawing_buffer : List Nat) (env : DispatchEnv) :
    acquiresReleased (w.undistort_image buffers itm drawing_buffer env).trace = true := by
  unfold OclWrapperSt.undistort_image
  repeat' split
  all_goals first
    | rfl
    | exact acquiresReleased_fromInput _ _ _

/-- C1: for every Compute Unit state and every dispatch via
`undistort_image` with a `Cpu` buffer source whose output slice length does
not equal the allocated destination buffer's length (and whose preceding
drawing-buffer upload, if issued, does not fault), the call returns `Ok`,
the kernel enqueue is never issued, and the caller's output byte slice is
left bit-for-bit unchanged. -/
theorem c1_cpu_output_mismatch_skips (w : OclWrapperSt)
    (buffers : BufferDescription) (input output : List Nat)
    (itm : FrameTransform) (drawing_buffer : List Nat) (env : DispatchEnv)
    (hbuf : buffers.buffers = .cpu input output)
    (hlen : output.length ≠ w.dstLen)
    (hdw : env.drawingWrite = true) :
    (w.undistort_image buffers itm drawing_buffer env).res = .ok () ∧
    (w.undistort_image buffers itm drawing_buffer env).enqueued = false ∧
    (w.undistort_image buffers itm drawing_buffer env).output = output := by
  have hfi : undistortFromInput w buffers env = ⟨.ok (), output, [], false⟩ := by
    unfold undistortFromInput
    rw [hbuf]
    dsimp only
    split
    · rfl
    · split
      · rfl
      · omega
  have hout : cpuOutput buffers.buffers = output := by rw [hbuf]; rfl
  unfold OclWrapperSt.undistort_image
  simp only [hout, hfi, hdw]
  repeat' split
  all_goals first
    | exact ⟨rfl, rfl, rfl⟩
    | simp_all

theorem c1_witness :
    bufsCpu.buffers = .cpu [0, 0] [0, 0, 0] ∧ (3 ≠ emptyWrapper.dstLen) ∧
    dispatchEnvOk.drawingWrite = true ∧
    (emptyWrapper.undistort_image bufsCpu itmEmpty [] dispatchEnvOk).res = .ok () ∧
    (emptyWrapper.undistort_image bufsCpu itmEmpty [] dispatchEnvOk).enqueued = false ∧
    (emptyWrapper.undistort_image bufsCpu itmEmpty [] dispatchEnvOk).output = [0, 0, 0] := by
  have h := c1_cpu_output_mismatch_skips emptyWrapper bufsCpu [0, 0] [0, 0, 0]
    itmEmpty [] dispatchEnvOk rfl (by decide) rfl
  exact ⟨rfl, by decide, rfl, h.1, h.2.1, h.2.2⟩

set_option maxRecDepth 10000

/-- C10: the automatic device selection of `initialize_context` applies no
denylist: for the configuration whose only GPU device is named
"Microsoft Basic Render Driver", `initialize_context` selects that device
and succeeds (its stored device's name contains the denylisted substring),
while `list_devices` on the same configuration returns the empty list. -/
theorem c10_initialize_ignores_denylist :
    exceptOk (OclWrapper.initialize_context cfgDenylistedGpu ctxBuildOk (some bufsCpu) none).1 = true ∧
    ((OclWrapper.initialize_context cfgDenylistedGpu ctxBuildOk (some bufsCpu) none).2.map
      fun c => isExcludedStr (exceptD c.device.name [])) = some true ∧
    OclWrapper.list_devices cfgDenylistedGpu none = [] := by
  exact ⟨by decide, by decide, by decide⟩

/-- C6 counterexample: a template containing each of the seven placeholder
tokens in which `LENS_MODEL_FUNCTIONS` is not followed by `;`; the composer
(which replaces the exact text `LENS_MODEL_FUNCTIONS;`) leaves the token in
the composed source, so composition does not remove all seven tokens from
every such template. -/
theorem c6_counterexample :
    containsSub (composeKernelSource c6BadTemplate cpNoDigital namesUchar4 4 1)
      (("LENS_MODEL_FUNCTIONS").toList) = true := by
  decide

/-- C6 (amended): for the kernel template of the spec's contract (each
placeholder token present, with `LENS_MODEL_FUNCTIONS` occurring as the
statement `LENS_MODEL_FUNCTIONS;`), with pixel tokens
`("uchar4", "convert_uchar4", "float4", "convert_float4")`, bytes-per-pixel
4, interpolation 1, and an absent secondary lens model (the identity
pass-through pair is substituted), none of the seven placeholder tokens
remains in the composed source string. -/
theorem c6_amended_no_tokens_remain :
    (placeholderTokens.all fun t =>
      !(containsSub (composeKernelSource openclUndistortTemplate cpNoDigital namesUchar4 4 1) t)) = true := by
  decide

/-- C7: `list_devices` is fault-isolated: it is a total function of the
configuration (no fault propagates), any injected enumeration fault yields
the empty list, and on success every returned entry is a
`"<platform> <device>: <version>"` string of successfully queried names and
contains no denylisted substring. -/
theorem c7_list_devices_fault_isolated (cfg : Config) (fault : Option Str) :
    (∀ s ∈ OclWrapper.list_devices cfg fault,
       isExcludedStr s = false ∧
       ∃ p ∈ cfg, ∃ ds, p.devices = .ok ds ∧ ∃ d ∈ ds, ∃ pn dn dv,
         p.name = .ok pn ∧ d.name = .ok dn ∧ d.version = .ok dv ∧
         s = deviceListing pn dn dv) ∧
    (∀ msg, fault = some msg → OclWrapper.list_devices cfg fault = []) := by
  constructor
  · intro s hs
    unfold OclWrapper.list_devices listDevicesClosure at hs
    cases fault with
    | some m => simp at hs
    | none =>
      unfold listDevicesBody at hs
      rw [List.mem_filter] at hs
      obtain ⟨hmem, hpred⟩ := hs
      refine ⟨by simpa using hpred, ?_⟩
      rw [List.mem_flatMap] at hmem
      obtain ⟨p, hp, hsp⟩ := hmem
      refine ⟨p, hp, ?_⟩
      cases hd : p.devices with
      | error e => rw [hd] at hsp; simp at hsp
      | ok ds =>
        rw [hd] at hsp
        rw [List.mem_filterMap] at hsp
        obtain ⟨d, hdmem, hfmt⟩ := hsp
        refine ⟨ds, rfl, d, hdmem, ?_⟩
        cases hpn : p.name with
        | error e => rw [hpn] at hfmt; simp at hfmt
        | ok pn =>
          cases hdn : d.name with
          | error e => rw [hpn, hdn] at hfmt; simp at hfmt
          | ok dn =>
            cases hdv : d.version with
            | error e => rw [hpn, hdn, hdv] at hfmt; simp at hfmt
            | ok dv =>
              rw [hpn, hdn, hdv] at hfmt
              simp only [Option.some_inj] at hfmt
              exact ⟨pn, dn, dv, rfl, rfl, rfl, hfmt.symm⟩
  · intro msg hf
    subst hf
    rfl

theorem c7_witness :
    OclWrapper.list_devices cfgTwo (some (("boom").toList)) = [] :=
  (c7_list_devices_fault_isolated cfgTwo (some (("boom").toList))).2 _ rfl

theorem buildVariant_checksum (env : NewEnv) (params : KernelParams)
    (buffers : BufferDescription) (ctx : CtxWrapper) :
    (buildVariant env params buffers ctx).2.surface_checksum = ctx.surface_checksum := by
  unfold buildVariant
  repeat' split
  all_goals rfl

theorem newWithCtx_checksum (env : NewEnv) (params : KernelParams)
    (buffers : BufferDescription) (ks : Str) (dl : Nat) (ctx : CtxWrapper) :
    (newWithCtx env params buffers ks dl ctx).2.surface_checksum = ctx.surface_checksum := by
  have hb := buildVariant_checksum env params buffers ctx
  unfold newWithCtx
  repeat' split
  all_goals simp_all

theorem initialize_contextE_checksum (cfg : Config) (env : CtxBuildEnv)
    (b : BufferDescription) (x : (Str × Str) × CtxWrapper)
    (h : initialize_contextE cfg env (some b) = .ok x) :
    x.2.surface_checksum = get_checksum b.buffers := by
  unfold initialize_contextE at h
  repeat' split at h
  all_goals simp_all
  all_goals (subst h; rfl)

theorem new_initFlag (cfg : Config) (params : KernelParams)
    (names : Str × Str × Str × Str) (cp : ComputeParams)
    (buffers : BufferDescription) (dl : Nat) (env : NewEnv) (st : Option CtxWrapper)
    (hgeom : ¬(params.height < 4 ∨ params.output_height < 4 ∨ params.stride < 1)) :
    (OclWrapper.new cfg params names cp buffers dl env st).2.2 =
      needsInit st (get_checksum buffers.buffers) := by
  unfold OclWrapper.new
  rw [if_neg hgeom]
  dsimp only
  repeat' split
  all_goals rfl

theorem new_checksum (cfg : Config) (params : KernelParams)
    (names : Str × Str × Str × Str) (cp : ComputeParams)
    (buffers : BufferDescription) (dl : Nat) (env : NewEnv) (st : Option CtxWrapper)
    (hgeom : ¬(params.height < 4 ∨ params.output_height < 4 ∨ params.stride < 1)) :
    Option.map CtxWrapper.surface_checksum
        (OclWrapper.new cfg params names cp buffers dl env st).2.1 =
      match needsInit st (get_checksum buffers.buffers),
          initialize_contextE cfg env.initEnv (some buffers) with
      | true, .ok _ => some (get_checksum buffers.buffers)
      | true, .error _ => Option.map CtxWrapper.surface_checksum st
      | false, _ => Option.map CtxWrapper.surface_checksum st := by
  unfold OclWrapper.new OclWrapper.initialize_context
  rw [if_neg hgeom]
  dsimp only
  cases hni : needsInit st (get_checksum buffers.buffers) with
  | false =>
    rw [if_neg Bool.false_ne_true]
    cases st with
    | none => simp [needsInit] at hni
    | some c => simp [newWithCtx_checksum]
  | true =>
    rw [if_pos rfl]
    cases hie : initialize_contextE cfg env.initEnv (some buffers) with
    | error e => rfl
    | ok x =>
      obtain ⟨nm, c⟩ := x
      have hc := initialize_contextE_checksum cfg env.initEnv buffers (nm, c) hie
      simp only at hc
      simp [newWithCtx_checksum, hc]

theorem needsInit_iff (st : Option CtxWrapper) (chk : Nat) :
    needsInit st chk = true ↔
      (st = none ∨ Option.map CtxWrapper.surface_checksum st ≠ some chk) := by
  cases st with
  | none => simp [needsInit]
  | some c => simp [needsInit, bne_iff_ne]

/-- C2: during Compute Unit construction (for parameters passing the
geometry precheck), the global context is rebuilt (`initialize_context` is
called) if and only if no active context exists or the stored
`surface_checksum` differs from the checksum of the requested
`BufferSource`; when the rebuild is skipped the stored checksum is
preserved; after a successful rebuild the stored checksum equals the new
buffer source's checksum; and along every sequence of constructions whose
starting state already carries the buffer source's checksum (as after a
first successful construction), no construction reinitializes the
context. -/
theorem c2_context_rebuild_iff (cfg : Config) (params : KernelParams)
    (names : Str × Str × Str × Str) (cp : ComputeParams)
    (buffers : BufferDescription) (dl : Nat) (env : NewEnv) (st : Option CtxWrapper)
    (hgeom : ¬(params.height < 4 ∨ params.output_height < 4 ∨ params.stride < 1)) :
    ((OclWrapper.new cfg params names cp buffers dl env st).2.2 = true ↔
       (st = none ∨ Option.map CtxWrapper.surface_checksum st ≠
          some (get_checksum buffers.buffers)))
    ∧ ((OclWrapper.new cfg params names cp buffers dl env st).2.2 = false →
        Option.map CtxWrapper.surface_checksum
            (OclWrapper.new cfg params names cp buffers dl env st).2.1 =
          Option.map CtxWrapper.surface_checksum st)
    ∧ (∀ x, initialize_contextE cfg env.initEnv (some buffers) = .ok x →
        (OclWrapper.new cfg params names cp buffers dl env st).2.2 = true →
        Option.map CtxWrapper.surface_checksum
            (OclWrapper.new cfg params names cp buffers dl env st).2.1 =
          some (get_checksum buffers.buffers))
    ∧ (∀ envs : List NewEnv,
        Option.map CtxWrapper.surface_checksum st =
            some (get_checksum buffers.buffers) →
        ∀ b ∈ newSeqInitCalls cfg params names cp buffers dl st envs, b = false) := by
  refine ⟨?_, ?_, ?_, ?_⟩
  · rw [new_initFlag cfg params names cp buffers dl env st hgeom]
    exact needsInit_iff st (get_checksum buffers.buffers)
  · intro hflag
    rw [new_initFlag cfg params names cp buffers dl env st hgeom] at hflag
    rw [new_checksum cfg params names cp buffers dl env st hgeom, hflag]
  · intro x hie hflag
    rw [new_initFlag cfg params names cp buffers dl env st hgeom] at hflag
    rw [new_checksum cfg params names cp buffers dl env st hgeom, hflag, hie]
  · intro envs
    induction envs generalizing st with
    | nil => intro _ b hb; unfold newSeqInitCalls at hb; cases hb
    | cons e es ih =>
      intro hchk b hb
      have hni : needsInit st (get_checksum buffers.buffers) = false := by
        cases st with
        | none => simp at hchk
        | some c =>
          simp only [Option.map_some', Option.some.injEq] at hchk
          simp [needsInit, hchk]
      have hflag : (OclWrapper.new cfg params names cp buffers dl e st).2.2 = false := by
        rw [new_initFlag cfg params names cp buffers dl e st hgeom, hni]
      have hnext : Option.map CtxWrapper.surface_checksum
          (OclWrapper.new cfg params names cp buffers dl e st).2.1 =
            some (get_checksum buffers.buffers) := by
        rw [new_checksum cfg params names cp buffers dl e st hgeom, hni, hchk]
      unfold newSeqInitCalls at hb
      rcases List.mem_cons.mp hb with hb1 | hb2
      · rw [hb1]; exact hflag
      · exact ih _ hnext b hb2

theorem c2_witness :
    (OclWrapper.new cfgGpu parsTall namesUchar4 cpNoDigital bufsCpu 0 newEnvOk none).2.2 = true := by
  have h := c2_context_rebuild_iff cfgGpu parsTall namesUchar4 cpNoDigital bufsCpu 0
    newEnvOk none (by decide)
  exact h.1.mpr (Or.inl rfl)

theorem newWithCtx_matricesLen (env : NewEnv) (params : KernelParams)
    (buffers : BufferDescription) (ks : Str) (dl : Nat) (ctx : CtxWrapper)
    (w : OclWrapperSt)
    (h : (newWithCtx env params buffers ks dl ctx).1 = .ok w) :
    w.bufMatricesLen = 9 * params.height := by
  unfold newWithCtx at h
  repeat' split at h
  all_goals simp_all
  all_goals (subst h; rfl)

theorem new_matricesLen (cfg : Config) (params : KernelParams)
    (names : Str × Str × Str × Str) (cp : ComputeParams)
    (buffers : BufferDescription) (dl : Nat) (env : NewEnv)
    (st : Option CtxWrapper) (w : OclWrapperSt)
    (h : (OclWrapper.new cfg params names cp buffers dl env st).1 = .ok w) :
    w.bufMatricesLen = 9 * params.height := by
  unfold OclWrapper.new at h
  by_cases hg : params.height < 4 ∨ params.output_height < 4 ∨ params.stride < 1
  · rw [if_pos hg] at h
    simp at h
  · rw [if_neg hg] at h
    dsimp only at h
    repeat' split at h
    all_goals first
      | exact newWithCtx_matricesLen _ _ _ _ _ _ w h
      | simp_all

/-- C4 counterexample: a Compute Unit successfully constructed with frame
height 4 and output height 8 allocates a matrices buffer of capacity
36 = 9 × height, not 72 = 9 × output height — the capacity is not
"9 × the output height" as claimed. -/
theorem c4_counterexample :
    ((OclWrapper.new cfgGpu parsTall namesUchar4 cpNoDigital bufsCpu 0 newEnvOk none).1.toOption.map
      fun w => w.bufMatricesLen) = some 36 ∧
    parsTall.output_height = 8 ∧ ¬(36 = 9 * 8) := by
  exact ⟨by decide, by decide, by decide⟩

/-- C4 (amended): for every successfully constructed Compute Unit, the
matrices upload buffer has capacity 9 × the frame height (`params.height` —
the source sizes it by the input frame height, not the output height), and
`undistort_image` validates the flattened matrix sequence
(`matrices.len() × 9` floats) against that capacity, skipping the frame
(returning `Ok` with nothing enqueued, no texture events, and the output
untouched) when it exceeds the capacity. -/
theorem c4_matrix_capacity_amended :
    (∀ (cfg : Config) (params : KernelParams) (names : Str × Str × Str × Str)
       (cp : ComputeParams) (buffers : BufferDescription) (dl : Nat)
       (env : NewEnv) (st : Option CtxWrapper) (w : OclWrapperSt),
       (OclWrapper.new cfg params names cp buffers dl env st).1 = .ok w →
       w.bufMatricesLen = 9 * params.height) ∧
    (∀ (w : OclWrapperSt) (buffers : BufferDescription) (itm : FrameTransform)
       (drawing : List Nat) (env : DispatchEnv),
       w.bufMatricesLen < itm.matrices.length * 9 →
       w.undistort_image buffers itm drawing env =
         ⟨.ok (), cpuOutput buffers.buffers, [], false⟩) := by
  constructor
  · exact fun cfg params names cp buffers dl env st w h =>
      new_matricesLen cfg params names cp buffers dl env st w h
  · intro w buffers itm drawing env hlt
    unfold OclWrapperSt.undistort_image
    dsimp only
    rw [if_pos hlt]

theorem c4_witness :
    builtTall.bufMatricesLen = 9 * parsTall.height ∧
    (emptyWrapper.undistort_image bufsCpu itmOne [] dispatchEnvOk).res = .ok () ∧
    (emptyWrapper.undistort_image bufsCpu itmOne [] dispatchEnvOk).enqueued = false := by
  have h1 := c4_matrix_capacity_amended.1 cfgGpu parsTall namesUchar4 cpNoDigital
    bufsCpu 0 newEnvOk none builtTall rfl
  have h2 := c4_matrix_capacity_amended.2 emptyWrapper bufsCpu itmOne [] dispatchEnvOk
    (by decide)
  exact ⟨h1, by rw [h2], by rw [h2]⟩

theorem firstSuch_append {α : Type} (l1 l2 : List α) (p : α → Bool) :
    firstSuch (l1 ++ l2) p =
      match firstSuch l1 p with
      | some x => some x
      | none => firstSuch l2 p := by
  induction l1 with
  | nil => rfl
  | cons x xs ih =>
    simp only [List.cons_append, firstSuch]
    by_cases h : p x
    · simp [h]
    · simp [h, ih]

theorem enumeratedPairs_cons (p : MockPlatform) (ps : List MockPlatform) :
    enumeratedPairs (p :: ps) =
      (match p.devices with
       | .ok ds => ds.map fun d => (p, d)
       | .error _ => []) ++ enumeratedPairs ps := by
  simp [enumeratedPairs]

theorem prefMatchDevs_eq (pref : Str) (p : MockPlatform) (ds : List MockDevice) :
    prefMatchDevs pref p ds =
      firstSuch (ds.map fun d => (p, d)) (fun pd => matchesPref pref pd.1 pd.2) := by
  induction ds with
  | nil => rfl
  | cons d ds ih =>
    simp only [prefMatchDevs, List.map_cons, firstSuch]
    by_cases h : matchesPref pref p d
    · simp [h]
    · simp [h, ih]

theorem prefMatchPlats_eq (pref : Str) (cfg : Config) :
    prefMatchPlats pref cfg =
      firstSuch (enumeratedPairs cfg) (fun pd => matchesPref pref pd.1 pd.2) := by
  induction cfg with
  | nil => rfl
  | cons p ps ih =>
    rw [enumeratedPairs_cons, firstSuch_append]
    cases hd : p.devices with
    | error e => simp [prefMatchPlats, hd, ih, firstSuch]
    | ok ds =>
      simp only [prefMatchPlats, hd]
      rw [← prefMatchDevs_eq]
      cases hm : prefMatchDevs pref p ds <;> simp [hm, ih]

theorem gpuFallbackDevs_eq (p : MockPlatform) (ds : List MockDevice) :
    gpuFallbackDevs p ds =
      firstSuch (ds.map fun d => (p, d))
        (fun pd => decide (pd.2.typInfo = some clDeviceTypeGpu)) := by
  induction ds with
  | nil => rfl
  | cons d ds ih =>
    simp only [gpuFallbackDevs, List.map_cons, firstSuch]
    cases ht : d.typInfo with
    | none => simp [ht, ih]
    | some t =>
      by_cases h : t = clDeviceTypeGpu
      · simp [ht, h]
      · simp [ht, h, ih]

theorem gpuFallbackPlats_eq (cfg : Config) :
    gpuFallbackPlats cfg =
      firstSuch (enumeratedPairs cfg)
        (fun pd => decide (pd.2.typInfo = some clDeviceTypeGpu)) := by
  induction cfg with
  | nil => rfl
  | cons p ps ih =>
    rw [enumeratedPairs_cons, firstSuch_append]
    cases hd : p.devices with
    | error e => simp [gpuFallbackPlats, hd, ih, firstSuch]
    | ok ds =>
      simp only [gpuFallbackPlats, hd]
      rw [← gpuFallbackDevs_eq]
      cases hm : gpuFallbackDevs p ds <;> simp [hm, ih]

theorem prefPass_eq (cfg : Config) (l : List Str) :
    prefPass cfg l = firstSome l (fun pref => prefMatchPlats pref cfg) := by
  induction l with
  | nil => rfl
  | cons pref rest ih =>
    simp only [prefPass, firstSome]
    cases h : prefMatchPlats pref cfg <;> simp [h, ih]

/-- C3: the automatic selection of `initialize_context` is exactly the
spec's rule: iterating the preference keywords in order, it picks the first
enumerated device whose combined `"<platform> <device>"` name
case-insensitively contains the first keyword that any device satisfies;
if no keyword matches any device, it picks the first device whose reported
type is exactly GPU; and when no device qualifies by either rule,
`initialize_context` fails with `MapUnavailable` (the spec's
`DeviceUnavailable`) leaving the stored context unchanged. -/
theorem c3_device_selection (cfg : Config) :
    autoSelectDevice cfg = specSelectDevice cfg ∧
    (∀ (env : CtxBuildEnv) (buffers : Option BufferDescription) (st : Option CtxWrapper),
      autoSelectDevice cfg = none →
      OclWrapper.initialize_context cfg env buffers st = (.error .mapUnavailable, st)) := by
  constructor
  · unfold autoSelectDevice specSelectDevice
    rw [prefPass_eq]
    have hfs : (fun pref => prefMatchPlats pref cfg) =
        (fun pref => firstSuch (enumeratedPairs cfg) fun pd => matchesPref pref pd.1 pd.2) :=
      funext fun pref => prefMatchPlats_eq pref cfg
    rw [hfs, gpuFallbackPlats_eq]
  · intro env buffers st h
    unfold OclWrapper.initialize_context initialize_contextE
    rw [h]

theorem c3_witness :
    OclWrapper.initialize_context [] ctxBuildOk (some bufsCpu) none =
      (.error .mapUnavailable, none) :=
  (c3_device_selection []).2 ctxBuildOk (some bufsCpu) none rfl

theorem set_deviceFound_checksum (env : CtxBuildEnv) (buffers : BufferDescription)
    (p : MockPlatform) (d : MockDevice) (c : CtxWrapper)
    (h : set_deviceFound env buffers p d = .ok c) :
    c.surface_checksum = get_checksum buffers.buffers := by
  unfold set_deviceFound at h
  repeat' split at h
  all_goals simp_all
  all_goals (subst h; rfl)

theorem set_deviceDevs_ok (env : CtxBuildEnv) (buffers : BufferDescription)
    (p : MockPlatform) (index : Nat) (ds : List MockDevice) :
    ∀ (i : Nat) (r : Except OclError CtxWrapper) (j : Nat),
      set_deviceDevs env buffers p index ds i = (some r, j) →
      ∃ d, r = set_deviceFound env buffers p d := by
  induction ds with
  | nil => intro i r j h; simp [set_deviceDevs] at h
  | cons d ds ih =>
    intro i r j h
    unfold set_deviceDevs at h
    split at h
    · exact ih _ _ _ h
    · split at h
      · simp only [Prod.mk.injEq, Option.some.injEq] at h
        exact ⟨d, h.1.symm⟩
      · exact ih _ _ _ h

theorem set_devicePlats_ok (env : CtxBuildEnv) (buffers : BufferDescription)
    (index : Nat) (cfg : Config) :
    ∀ (i : Nat) (c : CtxWrapper),
      set_devicePlats env buffers index cfg i = .ok c →
      c.surface_checksum = get_checksum buffers.buffers := by
  induction cfg with
  | nil => intro i c h; simp [set_devicePlats] at h
  | cons p ps ih =>
    intro i c h
    unfold set_devicePlats at h
    split at h
    · exact ih _ _ h
    · split at h
      · rename_i r j hds
        obtain ⟨d, hd⟩ := set_deviceDevs_ok env buffers p index _ _ _ _ hds
        subst hd
        exact set_deviceFound_checksum env buffers p d c h
      · exact ih _ _ h

/-- C9: `set_device` is atomic with respect to the context singleton: every
failure path (index beyond the filtered enumeration, a platform/device
query error at the chosen device, or a context-build failure) leaves the
stored context exactly as it was before the call; the singleton is
replaced only when the call returns success, and then it carries the
checksum of the supplied buffers. -/
theorem c9_set_device_atomic (cfg : Config) (env : CtxBuildEnv) (index : Nat)
    (buffers : BufferDescription) (st : Option CtxWrapper) :
    (∀ e, (OclWrapper.set_device cfg env index buffers st).1 = .error e →
       (OclWrapper.set_device cfg env index buffers st).2 = st) ∧
    ((OclWrapper.set_device cfg env index buffers st).1 = .ok () →
       ∃ c, (OclWrapper.set_device cfg env index buffers st).2 = some c ∧
         c.surface_checksum = get_checksum buffers.buffers) := by
  unfold OclWrapper.set_device
  cases hr : set_devicePlats env buffers index cfg 0 with
  | error e =>
    refine ⟨fun _ _ => rfl, fun h => ?_⟩
    simp at h
  | ok c =>
    refine ⟨fun e he => ?_, fun _ => ⟨c, rfl, ?_⟩⟩
    · simp at he
    · exact set_devicePlats_ok env buffers index cfg 0 c hr

theorem c9_witness :
    (OclWrapper.set_device cfgTwo ctxBuildOk 5 bufsCpu (some ctxStored)).2 =
      some ctxStored :=
  (c9_set_device_atomic cfgTwo ctxBuildOk 5 bufsCpu (some ctxStored)).1
    .mapUnavailable rfl

theorem exceptOk_exists {ε α : Type} (x : Except ε α) (h : exceptOk x = true) :
    ∃ a, x = .ok a := by
  cases x with
  | ok a => exact ⟨a, rfl⟩
  | error e => simp [exceptOk] at h

theorem deviceNotExcludedBare_eq (d : MockDevice) (dn : Str) (h : d.name = .ok dn) :
    deviceNotExcludedBare d = !isExcludedStr dn := by
  simp [deviceNotExcludedBare, isExcludedStr, h, exceptD]

theorem listDevicesBody_cons (p : MockPlatform) (ps : List MockPlatform) :
    listDevicesBody (p :: ps) =
      ((match p.devices with
        | .ok devs =>
          devs.filterMap fun (d : MockDevice) =>
            match p.name, d.name, d.version with
            | .ok pn, .ok dn, .ok dv => some (deviceListing pn dn dv)
            | _, _, _ => none
        | .error _ => []).filter fun x => !isExcludedStr x) ++ listDevicesBody ps := by
  simp [listDevicesBody, List.filter_append]

theorem filteredPairs_cons (p : MockPlatform) (ps : List MockPlatform) :
    filteredPairs (p :: ps) =
      (match p.devices with
       | .ok ds => (ds.filter deviceNotExcludedBare).map fun d => (p, d)
       | .error _ => []) ++ filteredPairs ps := by
  simp [filteredPairs]

theorem platformListing (p : MockPlatform) (pn : Str) (hpn : p.name = .ok pn)
    (ds : List MockDevice)
    (hds : ∀ d ∈ ds, (∃ dn, d.name = .ok dn) ∧ (∃ dv, d.version = .ok dv))
    (hagree : ∀ d ∈ ds, ∀ dn dv, d.name = .ok dn → d.version = .ok dv →
      isExcludedStr (deviceListing pn dn dv) = isExcludedStr dn) :
    ((ds.filterMap fun (d : MockDevice) =>
        match p.name, d.name, d.version with
        | .ok pn, .ok dn, .ok dv => some (deviceListing pn dn dv)
        | _, _, _ => none).filter fun x => !isExcludedStr x) =
      (ds.filter deviceNotExcludedBare).map fun d => listingOfPair (p, d) := by
  induction ds with
  | nil => rfl
  | cons d ds ih =>
    obtain ⟨⟨dn, hdn⟩, dv, hdv⟩ := hds d (List.mem_cons_self d ds)
    have hag := hagree d (List.mem_cons_self d ds) dn dv hdn hdv
    have hds' : ∀ d' ∈ ds, (∃ dn, d'.name = .ok dn) ∧ (∃ dv, d'.version = .ok dv) :=
      fun d' hm => hds d' (List.mem_cons_of_mem d hm)
    have hagree' : ∀ d' ∈ ds, ∀ dn dv, d'.name = .ok dn → d'.version = .ok dv →
        isExcludedStr (deviceListing pn dn dv) = isExcludedStr dn :=
      fun d' hm => hagree d' (List.mem_cons_of_mem d hm)
    have hlop : listingOfPair (p, d) = deviceListing pn dn dv := by
      simp [listingOfPair, hpn, hdn, hdv, exceptD]
    simp only [List.filterMap_cons, hpn, hdn, hdv, List.filter_cons,
      deviceNotExcludedBare_eq d dn hdn, hag,
      apply_ite (List.map fun d => listingOfPair (p, d)), List.map_cons, hlop]
    cases he : isExcludedStr dn with
    | false =>
      repeat' split
      all_goals try simp_all
      all_goals first
        | exact congrArg (List.cons (deviceListing pn dn dv)) (ih hagree')
        | exact ih hagree'
    | true =>
      repeat' split
      all_goals try simp_all
      all_goals exact ih hagree'

theorem queriesOk_spec (cfg : Config) (hq : queriesOk cfg = true)
    (p : MockPlatform) (hp : p ∈ cfg) :
    (∃ pn, p.name = .ok pn) ∧ ∃ ds, p.devices = .ok ds ∧
      ∀ d ∈ ds, (∃ dn, d.name = .ok dn) ∧ (∃ v, d.vendor = .ok v) ∧
        ∃ dv, d.version = .ok dv := by
  rw [queriesOk, List.all_eq_true] at hq
  have hppart := hq p hp
  simp only [Bool.and_eq_true] at hppart
  obtain ⟨h1, h2⟩ := hppart
  refine ⟨exceptOk_exists _ h1, ?_⟩
  cases hd : p.devices with
  | error e => rw [hd] at h2; simp at h2
  | ok ds =>
    rw [hd] at h2
    rw [List.all_eq_true] at h2
    refine ⟨ds, rfl, fun d hm => ?_⟩
    have := h2 d hm
    simp only [Bool.and_eq_true] at this
    exact ⟨exceptOk_exists _ this.1.1, exceptOk_exists _ this.1.2, exceptOk_exists _ this.2⟩

theorem exclusionAgrees_spec (cfg : Config) (hx : exclusionAgrees cfg = true)
    (p : MockPlatform) (hp : p ∈ cfg) (pn : Str) (hpn : p.name = .ok pn)
    (ds : List MockDevice) (hd : p.devices = .ok ds) :
    ∀ d ∈ ds, ∀ dn dv, d.name = .ok dn → d.version = .ok dv →
      isExcludedStr (deviceListing pn dn dv) = isExcludedStr dn := by
  rw [exclusionAgrees, List.all_eq_true] at hx
  intro d hm dn dv hdn hdv
  have hppart := hx p hp
  rw [hd] at hppart
  simp only at hppart
  rw [List.all_eq_true] at hppart
  have := hppart d hm
  rw [hpn, hdn, hdv] at this
  simpa using this

theorem listDevices_eq_filteredPairs (cfg : Config)
    (hq : queriesOk cfg = true) (hx : exclusionAgrees cfg = true) :
    OclWrapper.list_devices cfg none = (filteredPairs cfg).map listingOfPair := by
  show listDevicesBody cfg = (filteredPairs cfg).map listingOfPair
  induction cfg with
  | nil => rfl
  | cons p ps ih =>
    have hq' : queriesOk ps = true := by
      rw [queriesOk, List.all_cons, Bool.and_eq_true] at hq
      exact hq.2
    have hx' : exclusionAgrees ps = true := by
      rw [exclusionAgrees, List.all_cons, Bool.and_eq_true] at hx
      exact hx.2
    obtain ⟨⟨pn, hpn⟩, ds, hd, hds⟩ :=
      queriesOk_spec (p :: ps) hq p (List.mem_cons_self p ps)
    have hagree := exclusionAgrees_spec (p :: ps) hx p (List.mem_cons_self p ps) pn hpn ds hd
    rw [listDevicesBody_cons, filteredPairs_cons, hd, List.map_append, List.map_map]
    have hplat := platformListing p pn hpn ds
      (fun d hm => ⟨(hds d hm).1, (hds d hm).2.2⟩) hagree
    rw [hplat, ih hq' hx']
    rfl

theorem set_deviceDevs_cons (env : CtxBuildEnv) (buffers : BufferDescription)
    (p : MockPlatform) (index : Nat) (d : MockDevice) (ds : List MockDevice) (i : Nat) :
    set_deviceDevs env buffers p index (d :: ds) i =
      (if (EXCLUSIONS.any fun x => containsSub (exceptD d.name []) x) = true then
        set_deviceDevs env buffers p index ds i
      else if i = index then (some (set_deviceFound env buffers p d), i)
      else set_deviceDevs env buffers p index ds (i + 1)) := rfl

theorem set_deviceDevs_spec (env : CtxBuildEnv) (buffers : BufferDescription)
    (p : MockPlatform) (index : Nat) (ds : List MockDevice) : ∀ i : Nat,
    (i ≤ index →
      match (ds.filter deviceNotExcludedBare)[index - i]? with
      | some d => ∃ j, set_deviceDevs env buffers p index ds i =
          (some (set_deviceFound env buffers p d), j)
      | none => set_deviceDevs env buffers p index ds i =
          (none, i + (ds.filter deviceNotExcludedBare).length)) ∧
    (index < i → set_deviceDevs env buffers p index ds i =
        (none, i + (ds.filter deviceNotExcludedBare).length)) := by
  induction ds with
  | nil =>
    intro i
    refine ⟨fun _ => ?_, fun _ => by simp [set_deviceDevs]⟩
    simp [set_deviceDevs]
  | cons d ds ih =>
    intro i
    by_cases hany : (EXCLUSIONS.any fun x => containsSub (exceptD d.name []) x) = true
    · have hfil : (d :: ds).filter deviceNotExcludedBare =
          ds.filter deviceNotExcludedBare := by
        simp [List.filter_cons, deviceNotExcludedBare, hany]
      rw [hfil, set_deviceDevs_cons, if_pos hany]
      exact ih i
    · have hkeep : deviceNotExcludedBare d = true := by
        unfold deviceNotExcludedBare
        cases h : (EXCLUSIONS.any fun x => containsSub (exceptD d.name []) x) with
        | true => exact absurd h hany
        | false => rfl
      have hfil : (d :: ds).filter deviceNotExcludedBare =
          d :: ds.filter deviceNotExcludedBare := by
        simp [List.filter_cons, hkeep]
      by_cases hieq : i = index
      · constructor
        · intro _
          subst hieq
          rw [hfil, Nat.sub_self, List.getElem?_cons_zero]
          refine ⟨i, ?_⟩
          rw [set_deviceDevs_cons, if_neg hany, if_pos rfl]
        · intro hlt
          omega
      · rw [hfil, set_deviceDevs_cons, if_neg hany, if_neg hieq]
        constructor
        · intro hle
          have hlt : i < index := lt_of_le_of_ne hle hieq
          have h1 := (ih (i + 1)).1 hlt
          have hsub : index - i = (index - (i + 1)) + 1 := by omega
          rw [hsub, List.getElem?_cons_succ]
          cases hg : (ds.filter deviceNotExcludedBare)[index - (i + 1)]? with
          | some d' =>
            rw [hg] at h1
            exact h1
          | none =>
            rw [hg] at h1
            rw [h1]
            simp only [Prod.mk.injEq, List.length_cons]
            exact ⟨trivial, by omega⟩
        · intro hlt
          have h2 := (ih (i + 1)).2 (by omega)
          rw [h2]
          simp only [Prod.mk.injEq, List.length_cons]
          exact ⟨trivial, by omega⟩

theorem set_devicePlats_cons (env : CtxBuildEnv) (buffers : BufferDescription)
    (index : Nat) (p : MockPlatform) (ps : List MockPlatform) (i : Nat) :
    set_devicePlats env buffers index (p :: ps) i =
      (match p.devices with
       | .error _ => set_devicePlats env buffers index ps i
       | .ok devs =>
         match set_deviceDevs env buffers p index devs i with
         | (some r, _) => r
         | (none, i') => set_devicePlats env buffers index ps i') := rfl

theorem set_devicePlats_spec (env : CtxBuildEnv) (buffers : BufferDescription)
    (index : Nat) (cfg : Config) : ∀ i : Nat,
    (i ≤ index →
      match (filteredPairs cfg)[index - i]? with
      | some pd => set_devicePlats env buffers index cfg i =
          set_deviceFound env buffers pd.1 pd.2
      | none => set_devicePlats env buffers index cfg i = .error .mapUnavailable) ∧
    (index < i → set_devicePlats env buffers index cfg i = .error .mapUnavailable) := by
  induction cfg with
  | nil =>
    intro i
    exact ⟨fun _ => by simp [filteredPairs, set_devicePlats], fun _ => rfl⟩
  | cons p ps ih =>
    intro i
    cases hd : p.devices with
    | error e =>
      have hfp : filteredPairs (p :: ps) = filteredPairs ps := by
        rw [filteredPairs_cons, hd]
        rfl
      constructor
      · intro hle
        rw [hfp]
        simp only [set_devicePlats_cons, hd]
        exact (ih i).1 hle
      · intro hlt
        simp only [set_devicePlats_cons, hd]
        exact (ih i).2 hlt
    | ok devs =>
      have hdevs := set_deviceDevs_spec env buffers p index devs
      have hfp : filteredPairs (p :: ps) =
          ((devs.filter deviceNotExcludedBare).map fun d => (p, d)) ++ filteredPairs ps := by
        rw [filteredPairs_cons, hd]
      constructor
      · intro hle
        by_cases hlt : index - i < (devs.filter deviceNotExcludedBare).length
        · obtain ⟨dd, hdd⟩ : ∃ dd,
              (devs.filter deviceNotExcludedBare)[index - i]? = some dd := by
            rw [List.getElem?_eq_getElem hlt]
            exact ⟨_, rfl⟩
          have h1 := (hdevs i).1 hle
          rw [hdd] at h1
          obtain ⟨j, hj⟩ := h1
          rw [hfp]
          have hseg : (((devs.filter deviceNotExcludedBare).map fun d => (p, d)))[index - i]? =
              some (p, dd) := by
            rw [List.getElem?_map, hdd]
            rfl
          rw [List.getElem?_append_left (by simpa using hlt), hseg]
          simp only [set_devicePlats_cons, hd, hj]
        · have h1 := (hdevs i).1 hle
          have hnone : (devs.filter deviceNotExcludedBare)[index - i]? = none := by
            rw [List.getElem?_eq_none_iff]
            omega
          rw [hnone] at h1
          rw [hfp]
          rw [List.getElem?_append_right (by simp only [List.length_map]; omega)]
          simp only [List.length_map]
          have hsub : index - i - (devs.filter deviceNotExcludedBare).length =
              index - (i + (devs.filter deviceNotExcludedBare).length) := by omega
          rw [hsub]
          simp only [set_devicePlats_cons, hd, h1]
          exact (ih (i + (devs.filter deviceNotExcludedBare).length)).1 (by omega)
      · intro hlt
        have h2 := (hdevs i).2 hlt
        simp only [set_devicePlats_cons, hd, h2]
        exact (ih _).2 (by omega)

theorem filteredPairs_mem (cfg : Config) (pd : MockPlatform × MockDevice)
    (h : pd ∈ filteredPairs cfg) :
    pd.1 ∈ cfg ∧ ∃ ds, pd.1.devices = .ok ds ∧ pd.2 ∈ ds := by
  unfold filteredPairs at h
  rw [List.mem_flatMap] at h
  obtain ⟨p, hp, hin⟩ := h
  cases hd : p.devices with
  | error e =>
    rw [hd] at hin
    simp at hin
  | ok ds =>
    rw [hd] at hin
    simp only [List.mem_map] at hin
    obtain ⟨d, hdin, hdeq⟩ := hin
    subst hdeq
    exact ⟨hp, ds, hd, List.mem_of_mem_filter hdin⟩

theorem set_deviceFound_ok (env : CtxBuildEnv) (buffers : BufferDescription)
    (p : MockPlatform) (d : MockDevice)
    (hpn : ∃ pn, p.name = .ok pn) (hv : ∃ v, d.vendor = .ok v)
    (hdn : ∃ n, d.name = .ok n)
    (hb : exceptOk (env.ctxBuild (OclWrapper.get_properties (some buffers))) = true) :
    ∃ c, set_deviceFound env buffers p d = .ok c ∧ c.device = d ∧
      c.platform = p ∧ c.surface_checksum = get_checksum buffers.buffers := by
  obtain ⟨pn, hpn⟩ := hpn
  obtain ⟨v, hv⟩ := hv
  obtain ⟨n, hn⟩ := hdn
  obtain ⟨h, hh⟩ := exceptOk_exists _ hb
  unfold set_deviceFound
  rw [hpn, hv, hn, hh]
  exact ⟨_, rfl, rfl, rfl, rfl⟩

/-- C5 (amended): `set_device` enumerates platforms and devices in the same
order as `list_devices`, but it applies the exclusion list to the bare
device name only and does not skip devices whose name/version queries fail
(unlike `list_devices`, which filters the full formatted string and drops
entries with failing queries).  Provided every platform/device query
succeeds, the context build succeeds, and each device's formatted listing
contains a denylisted substring exactly when its bare name does, the device
`set_device` builds a context for at index `i` is exactly the device
described by the `i`-th element of `list_devices()`; it fails with
`MapUnavailable` (the spec's `DeviceUnavailable`) leaving the stored
context untouched when the index is out of range; and on success it
installs the new context tagged with the checksum of the supplied
buffers. -/
theorem c5_amended (cfg : Config) (env : CtxBuildEnv)
    (buffers : BufferDescription) (index : Nat) (st : Option CtxWrapper)
    (hq : queriesOk cfg = true) (hx : exclusionAgrees cfg = true)
    (hb : exceptOk (env.ctxBuild (OclWrapper.get_properties (some buffers))) = true) :
    (index < (OclWrapper.list_devices cfg none).length →
      ∃ c, OclWrapper.set_device cfg env index buffers st = (.ok (), some c) ∧
        c.surface_checksum = get_checksum buffers.buffers ∧
        some (listingOfPair (c.platform, c.device)) =
          (OclWrapper.list_devices cfg none)[index]?) ∧
    ((OclWrapper.list_devices cfg none).length ≤ index →
      OclWrapper.set_device cfg env index buffers st =
        (.error .mapUnavailable, st)) := by
  have hld := listDevices_eq_filteredPairs cfg hq hx
  have hplats := (set_devicePlats_spec env buffers index cfg 0).1 (Nat.zero_le index)
  rw [Nat.sub_zero] at hplats
  constructor
  · intro hlt
    rw [hld, List.length_map] at hlt
    obtain ⟨pd, hpd⟩ : ∃ pd, (filteredPairs cfg)[index]? = some pd := by
      rw [List.getElem?_eq_getElem hlt]
      exact ⟨_, rfl⟩
    rw [hpd] at hplats
    have hmem : pd ∈ filteredPairs cfg := List.getElem?_mem hpd
    obtain ⟨hpin, ds, hds, hdin⟩ := filteredPairs_mem cfg pd hmem
    obtain ⟨hpn, ds', hds', hdq⟩ := queriesOk_spec cfg hq pd.1 hpin
    have hdse : ds' = ds := by
      rw [hds] at hds'
      exact (Except.ok.injEq _ _).mp hds'.symm
    subst hdse
    obtain ⟨hdn, hdv, hdver⟩ := hdq pd.2 hdin
    obtain ⟨c, hc, hcd, hcp, hchk⟩ :=
      set_deviceFound_ok env buffers pd.1 pd.2 hpn hdv hdn hb
    refine ⟨c, ?_, hchk, ?_⟩
    · unfold OclWrapper.set_device
      rw [hplats, hc]
    · rw [hld, List.getElem?_map, hpd, hcp, hcd]
      rfl
  · intro hge
    rw [hld, List.length_map] at hge
    have hnone : (filteredPairs cfg)[index]? = none := by
      rw [List.getElem?_eq_none_iff]
      exact hge
    rw [hnone] at hplats
    unfold OclWrapper.set_device
    rw [hplats]

/-- C5 counterexample: for the configuration whose single platform is named
"Microsoft Basic Render Driver" (with device "Dev"), `list_devices` returns
the empty list (it filters the full formatted string), yet `set_device`
at index 0 succeeds (it filters the bare device name only) — so `set_device`
does not fail for every index greater than or equal to the length of
`list_devices()`, and its enumeration filter is not identical to that of
`list_devices`. -/
theorem c5_counterexample :
    OclWrapper.list_devices cfgPlatformDenylisted none = [] ∧
    exceptOk (OclWrapper.set_device cfgPlatformDenylisted ctxBuildOk 0 bufsCpu none).1 = true := by
  exact ⟨by decide, by decide⟩

theorem c5_witness :
    ∃ c, OclWrapper.set_device cfgTwo ctxBuildOk 0 bufsCpu none = (.ok (), some c) ∧
      c.surface_checksum = get_checksum bufsCpu.buffers ∧
      some (listingOfPair (c.platform, c.device)) =
        (OclWrapper.list_devices cfgTwo none)[0]? := by
  have h := c5_amended cfgTwo ctxBuildOk bufsCpu 0 none (by decide) (by decide) (by decide)
  exact h.1 (by decide)
